import Mathlib

/-!
Shallow embedding of the request-admission, routing and streaming-execution
core of the synapse-ai backend (src/backend/app/execution_engine.py,
rate_limiter.py, llm_router.py), together with proofs checking the
natural-language specification's claims against it.

Conventions of the embedding:
* Python `dict`s are association lists (`List (k × v)`) preserving insertion
  order, with lookup returning the first (unique) occurrence; `defaultdict`
  lookup that inserts a default on a missing key is made explicit.
* `time.time()` float timestamps are modelled as integer seconds (`Int`);
  every quantity the claims mention is integral.
* async generators are modelled as pure functions from their (already
  received) upstream input to the list of emitted items, with a raised
  exception modelled as an explicit outcome constructor.
-/

namespace Synapse

/-- Association-list lookup: first binding of the key, mirroring Python
`dict.get` (keys are unique in every dict the source builds). -/
def alistGet {α β : Type} [DecidableEq α] : List (α × β) → α → Option β
  | [], _ => none
  | (k, v) :: rest, a => if k = a then some v else alistGet rest a

/-- Association-list update: replace the first binding in place (keeping the
dict's insertion position) or append a new binding at the end, mirroring
Python `d[k] = v`. -/
def alistSet {α β : Type} [DecidableEq α] : List (α × β) → α → β → List (α × β)
  | [], a, b => [(a, b)]
  | (k, v) :: rest, a, b =>
    if k = a then (a, b) :: rest else (k, v) :: alistSet rest a b


/-! ## Response cache (execution_engine.py, module-level `response_cache` dict
with `_get_cached_response` / `_cache_response` / `clear_cache`). -/

/-- The response cache: a dict mapping cache key → complete response text. -/
abbrev ResponseCache := List (String × String)

/-- `ExecutionEngine._get_cached_response`: `response_cache.get(cache_key)`. -/
def get_cached_response (cache : ResponseCache) (cache_key : String) : Option String :=
  alistGet cache cache_key

/-- `ExecutionEngine._cache_response`: `response_cache[cache_key] = response`. -/
def cache_response (cache : ResponseCache) (cache_key response : String) : ResponseCache :=
  alistSet cache cache_key response

/-- `ExecutionEngine.clear_cache`: `response_cache.clear()`. -/
def clear_cache : ResponseCache := []

/-- `ExecutionEngine.get_cache_stats` entry count: `len(response_cache)`. -/
def cache_entries (cache : ResponseCache) : Nat := cache.length


/-! ## Cache fingerprint (`ExecutionEngine._generate_cache_key`):
`json.dumps({"model": model, "prompt": prompt, "parameters": parameters},
sort_keys=True)` followed by a SHA-256 hex digest.  Parameter values in this
system are the scalar generation settings (temperature, max_tokens, top_p,
top_k), so parameter values are modelled as scalar JSON values.  The digest
is an arbitrary deterministic function of the serialized string, so the
fingerprint is parametrized by it; equal serializations give equal digests
for every such function. -/

/-- A scalar JSON parameter value. -/
inductive PVal where
  | str (s : String)
  | int (n : Int)
  | bool (b : Bool)
  | null
deriving DecidableEq

/-- JSON rendering of a scalar parameter value (string escaping is not
needed at any concrete input the claims exercise). -/
def renderPVal : PVal → String
  | .str s => "\"" ++ s ++ "\""
  | .int n => toString n
  | .bool b => if b then "true" else "false"
  | .null => "null"

/-- Key order used by `json.dumps(..., sort_keys=True)`: lexicographic
string order on the keys. -/
def keyLe (a b : String × PVal) : Prop := a.1 ≤ b.1

instance : DecidableRel keyLe := fun a b => by
  unfold keyLe; infer_instance

instance : IsTotal (String × PVal) keyLe := ⟨fun a b => le_total a.1 b.1⟩

instance : IsTrans (String × PVal) keyLe := ⟨fun _ _ _ h1 h2 => le_trans h1 h2⟩

/-- Strict key order on object members (two members of one JSON object never
share a key). -/
def keyLt (a b : String × PVal) : Prop := a.1 < b.1

instance : IsAntisymm (String × PVal) keyLt :=
  ⟨fun _ _ h1 h2 => absurd h2 (lt_asymm h1)⟩

/-- Sorting of object keys performed by `json.dumps(..., sort_keys=True)`. -/
def sortParams (ps : List (String × PVal)) : List (String × PVal) :=
  List.insertionSort keyLe ps

/-- One `"key": value` member of a serialized JSON object. -/
def renderMember (kv : String × PVal) : String :=
  "\"" ++ kv.1 ++ "\": " ++ renderPVal kv.2

/-- Serialization of the parameters dict with sorted keys. -/
def renderParams (ps : List (String × PVal)) : String :=
  "\x7b" ++ String.intercalate ", " ((sortParams ps).map renderMember) ++ "\x7d"

/-- The `cache_string` of `_generate_cache_key`: serialization of
`{"model": model, "prompt": prompt, "parameters": parameters}` with sorted
keys at every level (top-level sorted order: model, parameters, prompt). -/
def cache_string (model prompt : String) (parameters : List (String × PVal)) : String :=
  "\x7b\"model\": \"" ++ model ++ "\", \"parameters\": " ++ renderParams parameters
    ++ ", \"prompt\": \"" ++ prompt ++ "\"\x7d"

/-- `ExecutionEngine._generate_cache_key`, parametrized by the hex digest
function (`sha256(·).hexdigest()` in the source): digest of `cache_string`. -/
def generate_cache_key (digest : String → String) (model prompt : String)
    (parameters : List (String × PVal)) : String :=
  digest (cache_string model prompt parameters)


/-! ## Provider dispatch (`ExecutionEngine._determine_api_provider`). -/

/-- Python `str.lower()` on the ASCII model identifiers this system
handles: character-wise lowercasing (written out on the char list so that
it is kernel-computable). -/
def lowerStr (s : String) : String := String.mk (s.data.map Char.toLower)

/-- Python's `needle in haystack` substring test, on explicit char lists. -/
def subAt : List Char → List Char → Bool
  | [], _ => true
  | _ :: _, [] => false
  | a :: as, b :: bs => a == b && subAt as bs

/-- Substring containment of `needle` anywhere in `hay`. -/
def containsSub (hay needle : String) : Bool :=
  go needle.toList hay.toList
where
  go (needle : List Char) : List Char → Bool
    | [] => subAt needle []
    | c :: rest => subAt needle (c :: rest) || go needle rest

/-- `ExecutionEngine._determine_api_provider`: case-insensitive substring
dispatch on the model identifier, checked in source order. -/
def determine_api_provider (model : String) : String :=
  let model_lower := lowerStr model
  if containsSub model_lower "gpt" || containsSub model_lower "openai" then
    "openai"
  else if containsSub model_lower "claude" || containsSub model_lower "anthropic" then
    "anthropic"
  else if containsSub model_lower "gemini" || containsSub model_lower "google" then
    "ollama"
  else
    "ollama"

/-- The dispatch rule exactly as the claim words it, read as ordered cases:
an identifier containing "gpt" or "openai" routes to the chat-style (OpenAI)
adapter; otherwise one containing "claude" or "anthropic" routes to the
message-style (Anthropic) adapter; any other identifier routes to the local
(Ollama) adapter.  Matching is case-insensitive substring containment. -/
def providerDispatchSpec (model : String) : String :=
  let model_lower := lowerStr model
  if containsSub model_lower "gpt" || containsSub model_lower "openai" then
    "openai"
  else if containsSub model_lower "claude" || containsSub model_lower "anthropic" then
    "anthropic"
  else
    "ollama"


/-! ## Model catalog (llm_router.py). -/

def VALID_POWER_LEVELS : List String := ["low", "med", "high", "pro"]

def MODEL_CATALOG : List (String × List (String × String)) :=
  [ ("low",
      [ ("code", "claude-3-haiku-20240307"),
        ("writing", "gpt-4o-mini"),
        ("research", "gpt-4o-mini"),
        ("default", "gpt-4o-mini") ]),
    ("med",
      [ ("code", "claude-3-5-sonnet-20240620"),
        ("writing", "gpt-4o"),
        ("research", "claude-3-5-sonnet-20240620"),
        ("default", "claude-3-5-sonnet-20240620") ]),
    ("high",
      [ ("code", "claude-3-5-sonnet-20241022"),
        ("writing", "gpt-4o"),
        ("research", "claude-3-5-sonnet-20241022"),
        ("default", "claude-3-5-sonnet-20241022") ]),
    ("pro",
      [ ("code", "claude-3-5-sonnet-20241022"),
        ("writing", "gpt-4o"),
        ("research", "claude-3-5-sonnet-20241022"),
        ("default", "gpt-4o") ]) ]

/-- `llm_router.select_model`.  The validity test runs on the raw
`power_level` before lowercasing, exactly as in the source; an invalid tier
is replaced by "low".  A falsy (empty) `task_type` becomes "default".
`MODEL_CATALOG[power_level]` cannot miss after the substitution (totalized
with `[]`), and every tier holds a "default" entry (totalized with ""). -/
def select_model (power_level task_type : String) : String :=
  let pl0 := if power_level ∈ VALID_POWER_LEVELS then power_level else "low"
  let pl := lowerStr pl0
  let tt := if task_type = "" then "default" else lowerStr task_type
  let tier_models := (alistGet MODEL_CATALOG pl).getD []
  match alistGet tier_models tt with
  | some m => m
  | none => (alistGet tier_models "default").getD ""


/-! ## Rate limiter (rate_limiter.py).  Timestamps are integer seconds.
The in-place `deque` mutations performed by `is_rate_limited` (defaultdict
insertion of an empty window, front-pruning of expired timestamps) are made
explicit by returning the updated state alongside the check result. -/

/-- A (client identifier, endpoint) tracking key. -/
abbrev RKey := String × String

/-- `RateLimiter` instance state: `request_history` (insertion-ordered dict
of per-key timestamp windows, each oldest-first), `_last_cleanup`, and the
`rate_limits` table `{endpoint_pattern: (per_minute, per_hour)}`. -/
structure RLState where
  request_history : List (RKey × List Int)
  last_cleanup : Int
  rate_limits : List (String × Nat × Nat)
deriving DecidableEq

/-- The `rate_limits` table installed by `RateLimiter.__init__`. -/
def default_rate_limits : List (String × Nat × Nat) :=
  [ ("POST:/auth/register", 5, 20),
    ("POST:/auth/login", 10, 50),
    ("POST:/auth/forgot-password", 3, 10),
    ("POST:/auth/reset-password", 3, 10),
    ("POST:/optimize", 20, 100),
    ("POST:/execute", 30, 150),
    ("PUT:/users/profile", 10, 50),
    ("PUT:/users/password", 5, 20),
    ("DELETE:/users/account", 2, 5),
    ("POST:/users/api-keys", 5, 20),
    ("DELETE:/users/api-keys/*", 10, 30),
    ("POST:/stripe/create-checkout", 10, 40),
    ("POST:/stripe/customer-portal", 5, 20),
    ("*", 60, 300) ]

/-- `RateLimiter.__init__` at construction time `t` (`_last_cleanup` is set
to the construction clock). -/
def initState (t : Int) : RLState :=
  { request_history := [], last_cleanup := t, rate_limits := default_rate_limits }

/-- `RateLimiter.get_endpoint_key` applied to the rejoined
`f"{method}:{path}"` string (`is_rate_limited` splits the endpoint on the
first ":" and `get_endpoint_key` joins it back, an identity round trip for
every `METHOD:path` key the middleware builds): exact match first, then the
first wildcard pattern `prefix + "/*"` whose prefix starts the endpoint,
else the default pattern `"*"`. -/
def get_endpoint_key (limits : List (String × Nat × Nat)) (endpoint : String) : String :=
  if (alistGet limits endpoint).isSome then endpoint
  else
    match limits.find? (fun p =>
        List.isSuffixOf "/*".data p.1.data
          && List.isPrefixOf (p.1.data.take (p.1.data.length - 2)) endpoint.data) with
    | some p => p.1
    | none => "*"

/-- The `(requests_per_minute, requests_per_hour)` pair `is_rate_limited`
resolves for an endpoint: `self.rate_limits.get(endpoint_key,
self.rate_limits["*"])` (totalized with the default `(60, 300)` pair, which
is what `rate_limits["*"]` holds in every state the source constructs). -/
def limitsFor (limits : List (String × Nat × Nat)) (endpoint : String) : Nat × Nat :=
  (alistGet limits (get_endpoint_key limits endpoint)).getD
    ((alistGet limits "*").getD (60, 300))

/-- Front-pruning of a window: `while timestamps and timestamps[0] <
current_time - 3600: timestamps.popleft()`. -/
def pruneWindow (now : Int) (w : List Int) : List Int :=
  w.dropWhile (fun ts => ts < now - 3600)

/-- `sum(1 for ts in timestamps if ts > cutoff)`. -/
def countAfter (cutoff : Int) (w : List Int) : Nat :=
  (w.filter (fun ts => cutoff < ts)).length

/-- Result triple of `RateLimiter.is_rate_limited`:
`(is_limited, error_message, retry_after_seconds)`. -/
structure RLCheck where
  limited : Bool
  message : Option String
  retry_after : Option Int
deriving DecidableEq

/-- `RateLimiter.is_rate_limited(client_id, endpoint)` at clock `now`.
The returned state carries the side effects of the check: the defaultdict
lookup binds the key (to `[]` when absent) and the window is front-pruned in
place. -/
def is_rate_limited (st : RLState) (now : Int) (client_id endpoint : String) :
    RLCheck × RLState :=
  let key : RKey := (client_id, endpoint)
  let lim := limitsFor st.rate_limits endpoint
  let timestamps := (alistGet st.request_history key).getD []
  let pruned := pruneWindow now timestamps
  let st' := { st with request_history := alistSet st.request_history key pruned }
  let requests_last_hour := countAfter (now - 3600) pruned
  let requests_last_minute := countAfter (now - 60) pruned
  if lim.1 ≤ requests_last_minute then
    ({ limited := true,
       message := some ("Rate limit exceeded: " ++ toString lim.1 ++ " requests per minute"),
       retry_after := some 60 }, st')
  else if lim.2 ≤ requests_last_hour then
    let oldest_in_hour := (pruned.find? (fun ts => now - 3600 < ts)).getD now
    ({ limited := true,
       message := some ("Rate limit exceeded: " ++ toString lim.2 ++ " requests per hour"),
       retry_after := some (oldest_in_hour + 3600 - now) }, st')
  else
    ({ limited := false, message := none, retry_after := none }, st')

/-- `RateLimiter.cleanup_old_entries` at clock `now`: a no-op within the
cleanup interval; otherwise stamp the cleanup time, front-prune every
window and delete the keys whose window became empty. -/
def cleanup_old_entries (st : RLState) (now : Int) : RLState :=
  if now - st.last_cleanup < 300 then st
  else
    { st with
      last_cleanup := now,
      request_history :=
        (st.request_history.map (fun kv => (kv.1, pruneWindow now kv.2))).filter
          (fun kv => !kv.2.isEmpty) }

/-- `RateLimiter.record_request` at clock `now`: append the current
timestamp to the key's window, then run the periodic cleanup. -/
def record_request (st : RLState) (now : Int) (client_id endpoint : String) : RLState :=
  let key : RKey := (client_id, endpoint)
  let st1 := { st with
    request_history :=
      alistSet st.request_history key
        (((alistGet st.request_history key).getD []) ++ [now]) }
  cleanup_old_entries st1 now

/-- The HTTP 429 rejection raised by the middleware. -/
structure HTTPError where
  status_code : Nat
  detail : String
  retry_after : Option Int
deriving DecidableEq

/-- Paths the middleware exempts from rate limiting. -/
def skip_paths : List String := ["/healthz", "/health/db", "/docs", "/openapi.json"]

/-- `rate_limit_middleware` for a request with the given resolved client
identifier, method and path, at clock `now`: returns the raised rejection
(if any) together with the limiter state after the call — the state
mutations of a denied check persist even though an exception is raised. -/
def rate_limit_middleware (st : RLState) (now : Int)
    (client_id method path : String) : Option HTTPError × RLState :=
  if path ∈ skip_paths then (none, st)
  else
    let endpoint := method ++ ":" ++ path
    let r := is_rate_limited st now client_id endpoint
    if r.1.limited then
      (some { status_code := 429, detail := r.1.message.getD "",
              retry_after := r.1.retry_after }, r.2)
    else
      (none, record_request r.2 now client_id endpoint)

/-- Run the middleware over a sequence of request clocks for one fixed
(client, method, path), returning the final state and, per request, whether
it was denied. -/
def runMiddleware (client_id method path : String) :
    RLState → List Int → RLState × List Bool
  | st, [] => (st, [])
  | st, t :: ts =>
    let (e, st') := rate_limit_middleware st t client_id method path
    let (stF, res) := runMiddleware client_id method path st' ts
    (stF, e.isSome :: res)


/-! ## Streaming execution (execution_engine.py).  Every `yield` of the
source's generators is an emitted item; the JSON objects the source builds
with `json.dumps({...})` (no `sort_keys`) are modelled as insertion-ordered
field lists. -/

/-- A JSON value as emitted on the wire. -/
inductive JVal where
  | str (s : String)
  | num (n : Nat)
  | bool (b : Bool)
  | obj (fields : List (String × JVal))

/-- One emitted server-sent line: a `data: {json}` line or the literal
`data: [DONE]` line. -/
inductive SSE where
  | dat (fields : List (String × JVal))
  | doneLit

/-- Does a serialized object carry a field with this name? -/
def hasField (name : String) : List (String × JVal) → Bool
  | [] => false
  | (k, _) :: rest => k == name || hasField name rest

/-- The claim's content-chunk shape `{content, provider}`. -/
def isContentShape : List (String × JVal) → Bool
  | [(k1, .str _), (k2, .str _)] => k1 == "content" && k2 == "provider"
  | _ => false

/-- The claim's terminal-chunk shape `{done: true, provider, totalLength}`. -/
def isDoneShape : List (String × JVal) → Bool
  | [(k1, .bool true), (k2, .str _), (k3, .num _)] =>
    k1 == "done" && k2 == "provider" && k3 == "total_length"
  | _ => false

/-- The claim's error-chunk shape `{error, provider}`. -/
def isErrorShape : List (String × JVal) → Bool
  | [(k1, .str _), (k2, .str _)] => k1 == "error" && k2 == "provider"
  | _ => false

/-- The claim's "one of exactly three shapes" predicate on a data line. -/
def claimChunkShape (fields : List (String × JVal)) : Bool :=
  isContentShape fields || isDoneShape fields || isErrorShape fields

/-- The cached-replay content chunk actually emitted by `cached_stream`:
`{content, cached: true}` — it has no provider field. -/
def isCachedContentShape : List (String × JVal) → Bool
  | [(k1, .str _), (k2, .bool true)] => k1 == "content" && k2 == "cached"
  | _ => false

/-- The cached-replay terminal chunk actually emitted by `cached_stream`:
`{done: true, cached: true}` — no provider, no total length. -/
def isCachedDoneShape : List (String × JVal) → Bool
  | [(k1, .bool true), (k2, .bool true)] => k1 == "done" && k2 == "cached"
  | _ => false

/-- Rendering of an emitted line: `f"data: {json.dumps(obj)}\n\n"` or the
literal `[DONE]` line.  The object body itself is abstracted by its field
list; only the mandatory "data: " lead-in matters to the claims. -/
def renderObj : List (String × JVal) → String
  | fields => "\x7b" ++ String.intercalate ", " (fields.map (fun kv => "\"" ++ kv.1 ++ "\": ...")) ++ "\x7d"

/-- The full text of one emitted line. -/
def renderSSE : SSE → String
  | .dat fields => "data: " ++ renderObj fields ++ "\n\n"
  | .doneLit => "data: [DONE]\n\n"

/-- The fixed-size slices `cached_response[i:i+chunk_size]` walked by
`cached_stream` (`chunk_size = 50`), written with a structural fuel
argument (the list length bounds the number of slices, since each step
drops at least one character). -/
def cachedChunksGo : Nat → List Char → List (List Char)
  | _, [] => []
  | 0, _ => []
  | fuel + 1, c :: rest => (c :: rest).take 50 :: cachedChunksGo fuel ((c :: rest).drop 50)

/-- All 50-character slices of a cached response. -/
def cachedChunks (l : List Char) : List (List Char) :=
  cachedChunksGo l.length l

/-- `execute_with_streaming.cached_stream`: re-chunk the cached response in
50-character slices, tagging each chunk `{content, cached: true}`, then a
terminal `{done: true, cached: true}` chunk. -/
def cached_stream (cached_response : String) : List SSE :=
  (cachedChunks cached_response.toList).map
      (fun ch => .dat [("content", .str (String.mk ch)), ("cached", .bool true)])
    ++ [.dat [("done", .bool true), ("cached", .bool true)]]

/-- A provider adapter's delta sequence as consumed by `stream_generator`:
it either ends normally after its deltas, or raises after emitting a prefix
of them (the exception message is what `str(e)` produces). -/
inductive AdapterOutcome where
  | ok (deltas : List String)
  | fail (deltas : List String) (msg : String)

/-- `execute_with_streaming.stream_generator` for a resolved provider tag:
each delta becomes `{content, provider}`; a normal end appends
`{done: true, provider, total_length}` with the accumulated length; an
exception appends `{error, provider}` instead (and the terminal chunk and
cache write are skipped). -/
def stream_generator (provider : String) : AdapterOutcome → List SSE
  | .ok deltas =>
    deltas.map (fun d => .dat [("content", .str d), ("provider", .str provider)])
      ++ [.dat [("done", .bool true), ("provider", .str provider),
                ("total_length", .num (String.join deltas).length)]]
  | .fail deltas msg =>
    deltas.map (fun d => .dat [("content", .str d), ("provider", .str provider)])
      ++ [.dat [("error", .str msg), ("provider", .str provider)]]

/-- The cache write performed by `stream_generator`: on a normal end the
accumulated `complete_response` is stored under the request's cache key;
an exception skips the write. -/
def stream_generator_cache (cache : ResponseCache) (cache_key : String) :
    AdapterOutcome → ResponseCache
  | .ok deltas => cache_response cache cache_key (String.join deltas)
  | .fail _ _ => cache

/-- Truthiness of `cached_response` in `if cached_response:` — `None` and
the empty string are falsy. -/
def truthyOptStr : Option String → Bool
  | none => false
  | some s => !(s == "")

/-- Which of the three top-level paths `execute_with_streaming` takes. -/
inductive ExecPath where
  | localMode
  | replay
  | fresh
deriving DecidableEq

/-- The path decision of `execute_with_streaming`: local mode first, then
the truthiness test on the cached value, else a fresh provider dispatch. -/
def execute_path (local_mode_enabled : Bool) (cache : ResponseCache)
    (cache_key : String) : ExecPath :=
  if local_mode_enabled then .localMode
  else if truthyOptStr (get_cached_response cache cache_key) then .replay
  else .fresh

/-- One line of the Ollama NDJSON stream as classified by the source's
handling in `_stream_ollama_response`:
* `empty` — a falsy (empty) line, skipped by `if line:`;
* `malformed raw` — fails `json.loads`, caught by the
  `except json.JSONDecodeError: continue` handler and skipped;
* `noResp` — parses to a JSON value on which `"response" in chunk_data`
  is false (an object without the key, or a string or list not containing
  "response"), so nothing is yielded and iteration continues;
* `resp s` — parses to an object whose "response" value is the delta `s`;
* `typeErr msg` — parses to valid JSON on which the adapter's expected
  shape raises a `TypeError`: `"response" in chunk_data` on a number,
  boolean or null, or `chunk_data["response"]` on a string or list that
  does contain "response".  Only `json.JSONDecodeError` is caught inside
  the loop, so this exception escapes to the generator's
  `except Exception` handler, which re-raises it as an HTTPException;
  `msg` is the message that exception renders to in the engine's error
  chunk. -/
inductive OllamaLine where
  | empty
  | malformed (raw : String)
  | noResp
  | resp (s : String)
  | typeErr (msg : String)

/-- The adapter outcome of `_stream_ollama_response` over its upstream
lines: deltas are yielded until the line iteration ends normally, or a
`TypeError`-raising line aborts the generator after the deltas yielded so
far (empty lines, JSON-invalid lines and lines without a truthy "response"
membership are skipped and iteration continues). -/
def stream_ollama_response : List OllamaLine → AdapterOutcome
  | [] => .ok []
  | .empty :: rest => stream_ollama_response rest
  | .malformed _ :: rest => stream_ollama_response rest
  | .noResp :: rest => stream_ollama_response rest
  | .typeErr msg :: _ => .fail [] msg
  | .resp s :: rest =>
    match stream_ollama_response rest with
    | .ok ds => .ok (s :: ds)
    | .fail ds msg => .fail (s :: ds) msg

/-- The engine output for an Ollama-routed request whose HTTP call
succeeds: the adapter's outcome wrapped by `stream_generator` under the
"ollama" provider tag. -/
def ollama_engine_stream (lines : List OllamaLine) : List SSE :=
  stream_generator "ollama" (stream_ollama_response lines)

/-- One upstream line of the local-gateway relay as classified by
`_execute_local_mode_streaming.local_stream` (classification in source
order: a line not starting with "data: " is ignored; the "[DONE]" payload
relays the literal and breaks; an unparsable payload is forwarded as a
content chunk; then "response" in data / "error" in data / truthy "done" /
passthrough). -/
inductive LocalLine where
  | noData (raw : String)
  | doneMark
  | unparsed (raw : String)
  | resp (s : String)
  | err (e : String)
  | doneObj (meta : List (String × JVal))
  | other (fields : List (String × JVal))

/-- The relay loop of `local_stream` over the gateway's lines. -/
def local_stream_lines : List LocalLine → List SSE
  | [] => []
  | .noData _ :: rest => local_stream_lines rest
  | .doneMark :: _ => [.doneLit]
  | .unparsed raw :: rest =>
    .dat [("content", .str raw), ("provider", .str "local")] :: local_stream_lines rest
  | .resp s :: rest =>
    .dat [("content", .str s), ("provider", .str "local")] :: local_stream_lines rest
  | .err e :: rest =>
    .dat [("error", .str e), ("provider", .str "local")] :: local_stream_lines rest
  | .doneObj meta :: _ =>
    [.dat [("done", .bool true), ("provider", .str "local"), ("metadata", .obj meta)]]
  | .other fields :: rest => .dat fields :: local_stream_lines rest

/-- The status chunk `local_stream` emits before relaying. -/
def localStatusChunk (local_model : String) : List (String × JVal) :=
  [("status", .str "started"), ("model", .str local_model), ("mode", .str "local")]

/-- `_execute_local_mode_streaming.local_stream` for a gateway call that
returns HTTP 200: the status chunk followed by the relayed lines. -/
def local_stream (local_model : String) (lines : List LocalLine) : List SSE :=
  .dat (localStatusChunk local_model) :: local_stream_lines lines

/-- Number of emitted lines satisfying a shape predicate. -/
def countShape (p : List (String × JVal) → Bool) (l : List SSE) : Nat :=
  (l.filter (fun e => match e with | .dat fields => p fields | .doneLit => false)).length


/-! ## Concrete scenario fixtures. -/

/-- A limiter configured with a `(2/min, 10/hr)` limit on endpoint
`POST:/x` (the spec's scenario configuration), plus the default pattern. -/
def stX : RLState :=
  { request_history := [], last_cleanup := 0,
    rate_limits := [("POST:/x", (2, 10)), ("*", (60, 300))] }

/-- The limiter state reached from a fresh limiter by ten admitted requests
of client "c" to `POST:/auth/register` (per-minute ceiling 5): five at
clock 10 and five at clock 3560. -/
def c2state : RLState :=
  (runMiddleware "c" "POST" "/auth/register" (initState 0)
    [10, 10, 10, 10, 10, 3560, 3560, 3560, 3560, 3560]).1


/-! # Theorems -/

/-! ## Association-list facts. -/

theorem alistGet_set_self {α β : Type} [DecidableEq α]
    (l : List (α × β)) (a : α) (b : β) : alistGet (alistSet l a b) a = some b := by
  induction l with
  | nil => simp [alistGet, alistSet]
  | cons hd tl ih =>
    obtain ⟨k, v⟩ := hd
    by_cases h : k = a
    · simp [alistSet, h, alistGet]
    · simp [alistSet, h, alistGet, ih]

theorem alistGet_set_other {α β : Type} [DecidableEq α]
    (l : List (α × β)) (a a' : α) (b : β) (h : a' ≠ a) :
    alistGet (alistSet l a b) a' = alistGet l a' := by
  induction l with
  | nil => simp [alistGet, alistSet, Ne.symm h]
  | cons hd tl ih =>
    obtain ⟨k, v⟩ := hd
    by_cases hk : k = a
    · subst hk
      simp [alistSet, alistGet, Ne.symm h]
    · simp only [alistSet, if_neg hk]
      by_cases hk' : k = a'
      · simp [alistGet, hk']
      · simp [alistGet, hk', ih]

theorem alistGet_mem_values {α β : Type} [DecidableEq α] :
    ∀ (l : List (α × β)) (k : α) (v : β),
      alistGet l k = some v → v ∈ l.map Prod.snd
  | [], _, _, h => by simp [alistGet] at h
  | (k', v') :: rest, k, v, h => by
    by_cases hk : k' = k
    · simp [alistGet, hk] at h
      simp [h]
    · simp only [alistGet, if_neg hk] at h
      simpa using Or.inr (alistGet_mem_values rest k v h)

theorem alistGet_some_mem_keys {α β : Type} [DecidableEq α] :
    ∀ (l : List (α × β)) (k : α) (v : β),
      alistGet l k = some v → k ∈ l.map Prod.fst
  | [], _, _, h => by simp [alistGet] at h
  | (k', v') :: rest, k, v, h => by
    by_cases hk : k' = k
    · simp [hk]
    · simp only [alistGet, if_neg hk] at h
      simpa using Or.inr (alistGet_some_mem_keys rest k v h)

theorem alistGet_none_of_not_mem {α β : Type} [DecidableEq α] :
    ∀ (l : List (α × β)) (k : α), k ∉ l.map Prod.fst → alistGet l k = none
  | [], _, _ => rfl
  | (k', v') :: rest, k, h => by
    simp only [List.map_cons, List.mem_cons] at h
    push_neg at h
    simp only [alistGet, if_neg (fun hk : k' = k => h.1 hk.symm)]
    exact alistGet_none_of_not_mem rest k h.2

theorem alistSet_keys_of_absent {α β : Type} [DecidableEq α] :
    ∀ (l : List (α × β)) (a : α) (b : β), alistGet l a = none →
      (alistSet l a b).map Prod.fst = l.map Prod.fst ++ [a]
  | [], _, _, _ => by simp [alistSet]
  | (k, v) :: rest, a, b, h => by
    by_cases hk : k = a
    · simp [alistGet, hk] at h
    · simp only [alistGet, if_neg hk] at h
      simp [alistSet, if_neg hk, alistSet_keys_of_absent rest a b h]


/-! ## Cache round trip (C7). -/

/-- C7: for every key k and value v, after put(k, v) a get(k) returns
exactly v; and after a subsequent clear() of the cache, get(k) returns
absent — for every key, not just k. -/
theorem claim_C7_cache_round_trip :
    (∀ (cache : ResponseCache) (k v : String),
      get_cached_response (cache_response cache k v) k = some v)
    ∧ (∀ k : String, get_cached_response clear_cache k = none) := by
  constructor
  · intro cache k v
    simpa [get_cached_response, cache_response] using alistGet_set_self cache k v
  · intro k
    rfl

/-! ## Provider dispatch (C3). -/

/-- C3: for every model identifier string, provider dispatch is decided by
case-insensitive substring matching: an identifier containing "gpt" or
"openai" routes to the chat-style (OpenAI) adapter; one containing "claude"
or "anthropic" routes to the message-style (Anthropic) adapter; any other
identifier — including explicit local markers — routes to the local
(Ollama) adapter.  Formally: the source's dispatch function coincides with
the claim's three-case rule at every identifier (the source's extra
"gemini"/"google" branch also returns the local adapter, so it folds into
the catch-all case). -/
theorem claim_C3_provider_dispatch :
    ∀ model : String, determine_api_provider model = providerDispatchSpec model := by
  intro m
  simp only [determine_api_provider, providerDispatchSpec]
  by_cases h1 : (containsSub (lowerStr m) "gpt" || containsSub (lowerStr m) "openai") = true
  · simp [h1]
  · by_cases h2 : (containsSub (lowerStr m) "claude" || containsSub (lowerStr m) "anthropic") = true
    · simp [h1, h2]
    · by_cases h3 : (containsSub (lowerStr m) "gemini" || containsSub (lowerStr m) "google") = true
      · simp [h1, h2, h3]
      · simp [h1, h2, h3]

/-! ## Model catalog fallback (C8). -/

theorem select_model_low_ne_empty (task_type : String) :
    select_model "low" task_type ≠ "" := by
  have hmem : ("low" : String) ∈ VALID_POWER_LEVELS := by decide
  have hlow : lowerStr "low" = "low" := by decide
  have hcat : (alistGet MODEL_CATALOG "low").getD []
      = [ ("code", "claude-3-haiku-20240307"),
          ("writing", "gpt-4o-mini"),
          ("research", "gpt-4o-mini"),
          ("default", "gpt-4o-mini") ] := by decide
  simp only [select_model, if_pos hmem, hlow, hcat]
  rcases hg : alistGet
      [ ("code", "claude-3-haiku-20240307"),
        ("writing", "gpt-4o-mini"),
        ("research", "gpt-4o-mini"),
        ("default", "gpt-4o-mini") ]
      (if task_type = "" then "default" else lowerStr task_type) with _ | m
  · simp only [hg]
    decide
  · simp only [hg]
    have hv := alistGet_mem_values _ _ _ hg
    simp only [List.map_cons, List.map_nil, List.mem_cons, List.not_mem_nil, or_false] at hv
    rcases hv with h | h | h | h <;> (subst h; decide)

/-- C8: for every tier string not among the four known tiers and every
task-type string, model resolution does not fail: it substitutes the lowest
tier and returns the same model identifier as resolving ("low", taskType);
the returned identifier is never empty. -/
theorem claim_C8_invalid_tier_fallback :
    ∀ power_level task_type : String, power_level ∉ VALID_POWER_LEVELS →
      select_model power_level task_type = select_model "low" task_type
      ∧ select_model power_level task_type ≠ "" := by
  intro pl tt h
  have h1 : select_model pl tt = select_model "low" tt := by
    simp only [select_model, if_neg h, if_pos (show ("low" : String) ∈ VALID_POWER_LEVELS by decide)]
  exact ⟨h1, h1 ▸ select_model_low_ne_empty tt⟩

/-- Witness for C8 at the concrete invalid tier "ultra". -/
theorem claim_C8_witness :
    ("ultra" ∉ VALID_POWER_LEVELS)
    ∧ (select_model "ultra" "code" = select_model "low" "code"
       ∧ select_model "ultra" "code" ≠ "") :=
  ⟨by decide, claim_C8_invalid_tier_fallback "ultra" "code" (by decide)⟩


/-! ## Fingerprint order-independence (C6). -/

theorem sortParams_eq_of_perm (ps1 ps2 : List (String × PVal))
    (hperm : ps1.Perm ps2) (hnd : (ps1.map Prod.fst).Nodup) :
    sortParams ps1 = sortParams ps2 := by
  have hs1 : List.Sorted keyLe (sortParams ps1) := List.sorted_insertionSort keyLe ps1
  have hs2 : List.Sorted keyLe (sortParams ps2) := List.sorted_insertionSort keyLe ps2
  have hp : (sortParams ps1).Perm (sortParams ps2) :=
    (List.perm_insertionSort keyLe ps1).trans
      (hperm.trans (List.perm_insertionSort keyLe ps2).symm)
  have hnd1 : ((sortParams ps1).map Prod.fst).Nodup :=
    (((List.perm_insertionSort keyLe ps1).map Prod.fst).nodup_iff).mpr hnd
  have hnd2 : ((sortParams ps2).map Prod.fst).Nodup :=
    ((hp.symm.map Prod.fst).nodup_iff).mpr hnd1
  have hne1 : (sortParams ps1).Pairwise (fun a b => a.1 ≠ b.1) :=
    List.pairwise_map.mp hnd1
  have hne2 : (sortParams ps2).Pairwise (fun a b => a.1 ≠ b.1) :=
    List.pairwise_map.mp hnd2
  have hlt1 : List.Sorted keyLt (sortParams ps1) :=
    (hs1.and hne1).imp (fun h => lt_of_le_of_ne h.1 h.2)
  have hlt2 : List.Sorted keyLt (sortParams ps2) :=
    (hs2.and hne2).imp (fun h => lt_of_le_of_ne h.1 h.2)
  exact List.eq_of_perm_of_sorted hp hlt1 hlt2

/-- C6: for every model identifier, prompt, and pair of parameter maps that
are equal as key-value sets (permutations of each other, with the distinct
keys every Python dict has) but built in different insertion orders, the
cache fingerprint function returns the same key — for every deterministic
digest function, since the sorted serializations coincide. -/
theorem claim_C6_fingerprint_order_independent :
    ∀ (digest : String → String) (model prompt : String)
      (ps1 ps2 : List (String × PVal)),
      ps1.Perm ps2 → (ps1.map Prod.fst).Nodup →
      generate_cache_key digest model prompt ps1
        = generate_cache_key digest model prompt ps2 := by
  intro d m p ps1 ps2 hperm hnd
  unfold generate_cache_key cache_string renderParams
  rw [sortParams_eq_of_perm ps1 ps2 hperm hnd]

/-- Witness for C6: fingerprint(m, p, {a:1, b:2}) = fingerprint(m, p, {b:2, a:1}). -/
theorem claim_C6_witness :
    ([("a", PVal.int 1), ("b", PVal.int 2)].Perm [("b", PVal.int 2), ("a", PVal.int 1)])
    ∧ (([("a", PVal.int 1), ("b", PVal.int 2)].map Prod.fst).Nodup)
    ∧ generate_cache_key id "m" "p" [("a", PVal.int 1), ("b", PVal.int 2)]
        = generate_cache_key id "m" "p" [("b", PVal.int 2), ("a", PVal.int 1)] :=
  ⟨by decide, by decide,
    claim_C6_fingerprint_order_independent id "m" "p" _ _ (by decide) (by decide)⟩

/-! ## Empty cached response is stored yet replays as a miss (C9). -/

/-- C9: if a non-cached request completes successfully with an empty
accumulated response, the empty string is stored in the cache (so the key
is present and counted by cache stats), yet a subsequent request with the
identical fingerprint is still dispatched fresh, because the cache-hit
decision tests the truthiness of the cached value rather than key
presence. -/
theorem claim_C9_empty_response_cached_but_miss :
    ∀ (cache : ResponseCache) (cache_key : String) (deltas : List String),
      String.join deltas = "" →
      get_cached_response (stream_generator_cache cache cache_key (.ok deltas)) cache_key
          = some ""
      ∧ cache_key ∈ (stream_generator_cache cache cache_key (.ok deltas)).map Prod.fst
      ∧ execute_path false (stream_generator_cache cache cache_key (.ok deltas)) cache_key
          = .fresh := by
  intro cache k ds h
  have hget : get_cached_response (stream_generator_cache cache k (.ok ds)) k = some "" := by
    simp only [stream_generator_cache, get_cached_response, cache_response, h]
    exact alistGet_set_self cache k ""
  refine ⟨hget, alistGet_some_mem_keys _ _ _ hget, ?_⟩
  simp [execute_path, hget, truthyOptStr]

/-- Witness for C9 at the empty cache, key "k" and an empty delta list. -/
theorem claim_C9_witness :
    String.join [] = ""
    ∧ (get_cached_response (stream_generator_cache [] "k" (.ok [])) "k" = some ""
       ∧ "k" ∈ (stream_generator_cache [] "k" (.ok [])).map Prod.fst
       ∧ execute_path false (stream_generator_cache [] "k" (.ok [])) "k" = .fresh) :=
  ⟨rfl, claim_C9_empty_response_cached_but_miss [] "k" [] rfl⟩


/-! ## Line handling in the Ollama adapter (C4). -/

theorem stream_ollama_response_map_resp :
    ∀ ds : List String, stream_ollama_response (ds.map .resp) = .ok ds
  | [] => rfl
  | d :: rest => by
    simp only [List.map_cons, stream_ollama_response, stream_ollama_response_map_resp rest]

theorem countShape_append (p : List (String × JVal) → Bool) (l1 l2 : List SSE) :
    countShape p (l1 ++ l2) = countShape p l1 + countShape p l2 := by
  simp [countShape, List.filter_append]

theorem countShape_map_of_true {β : Type} (p : List (String × JVal) → Bool)
    (g : β → SSE) (ds : List β)
    (h : ∀ d, (match g d with | .dat fields => p fields | .doneLit => false) = true) :
    countShape p (ds.map g) = ds.length := by
  unfold countShape
  rw [List.filter_eq_self.mpr]
  · simp
  · intro e he
    obtain ⟨d, _, rfl⟩ := List.mem_map.mp he
    exact h d

theorem countShape_map_of_false {β : Type} (p : List (String × JVal) → Bool)
    (g : β → SSE) (ds : List β)
    (h : ∀ d, (match g d with | .dat fields => p fields | .doneLit => false) = false) :
    countShape p (ds.map g) = 0 := by
  unfold countShape
  rw [List.filter_eq_nil_iff.mpr]
  · rfl
  · intro e he
    obtain ⟨d, _, rfl⟩ := List.mem_map.mp he
    simp [h d]

/-- C4 (amended): a line that fails JSON parsing (and likewise a line on
which the "response" membership test is simply false) is skipped and
streaming continues with the remaining lines; for one JSON-invalid line
followed by nine well-formed lines the engine emits exactly nine content
chunks followed by one terminal done chunk and no error chunk.  However a
line that parses as valid JSON but not in the adapter's expected shape —
raising a TypeError past the JSONDecodeError-only handler — aborts the
whole stream: the engine emits an error chunk and the remaining lines are
never consumed. -/
theorem claim_C4_line_handling :
    (∀ (raw : String) (rest : List OllamaLine),
      stream_ollama_response (.malformed raw :: rest) = stream_ollama_response rest)
    ∧ (∀ rest : List OllamaLine,
      stream_ollama_response (.noResp :: rest) = stream_ollama_response rest)
    ∧ (∀ (raw : String) (ds : List String), ds.length = 9 →
        ollama_engine_stream (.malformed raw :: ds.map .resp)
            = ds.map (fun d => SSE.dat [("content", .str d), ("provider", .str "ollama")])
              ++ [SSE.dat [("done", .bool true), ("provider", .str "ollama"),
                    ("total_length", .num (String.join ds).length)]]
        ∧ countShape (hasField "content")
            (ollama_engine_stream (.malformed raw :: ds.map .resp)) = 9
        ∧ countShape isDoneShape
            (ollama_engine_stream (.malformed raw :: ds.map .resp)) = 1
        ∧ countShape isErrorShape
            (ollama_engine_stream (.malformed raw :: ds.map .resp)) = 0)
    ∧ (∀ (msg : String) (rest : List OllamaLine),
        ollama_engine_stream (.typeErr msg :: rest)
            = [SSE.dat [("error", .str msg), ("provider", .str "ollama")]]
        ∧ countShape (hasField "content") (ollama_engine_stream (.typeErr msg :: rest)) = 0
        ∧ countShape isDoneShape (ollama_engine_stream (.typeErr msg :: rest)) = 0
        ∧ countShape isErrorShape (ollama_engine_stream (.typeErr msg :: rest)) = 1) := by
  refine ⟨?_, ?_, ?_, ?_⟩
  · intro raw rest
    rfl
  · intro rest
    rfl
  · intro raw ds h9
    have hstream : ollama_engine_stream (.malformed raw :: ds.map .resp)
        = ds.map (fun d => SSE.dat [("content", .str d), ("provider", .str "ollama")])
          ++ [SSE.dat [("done", .bool true), ("provider", .str "ollama"),
                ("total_length", .num (String.join ds).length)]] := by
      unfold ollama_engine_stream
      rw [show stream_ollama_response (.malformed raw :: ds.map .resp) = .ok ds from
        stream_ollama_response_map_resp ds]
      rfl
    refine ⟨hstream, ?_, ?_, ?_⟩
    · rw [hstream, countShape_append,
        countShape_map_of_true (hasField "content") _ ds (fun d => rfl), h9]
      rfl
    · rw [hstream, countShape_append,
        countShape_map_of_false isDoneShape _ ds (fun d => rfl)]
      rfl
    · rw [hstream, countShape_append,
        countShape_map_of_false isErrorShape _ ds (fun d => rfl)]
      rfl
  · intro msg rest
    exact ⟨rfl, rfl, rfl, rfl⟩

/-- Counterexample to C4 as stated: a line that is valid JSON but not an
object (the bare number 5 here, whose membership test `"response" in 5`
raises `TypeError: argument of type int is not iterable`) cannot be parsed
in the adapter's expected shape, yet instead of being skipped it aborts the
stream: nine well-formed lines follow and the engine emits no content
chunk, no done chunk, and one error chunk. -/
theorem claim_C4_counterexample :
    ollama_engine_stream (.typeErr "argument of type int is not iterable"
        :: List.replicate 9 (OllamaLine.resp "d"))
      = [SSE.dat [("error", JVal.str "argument of type int is not iterable"),
                  ("provider", JVal.str "ollama")]]
    ∧ countShape (hasField "content")
        (ollama_engine_stream (.typeErr "argument of type int is not iterable"
          :: List.replicate 9 (OllamaLine.resp "d"))) = 0
    ∧ countShape isDoneShape
        (ollama_engine_stream (.typeErr "argument of type int is not iterable"
          :: List.replicate 9 (OllamaLine.resp "d"))) = 0
    ∧ countShape isErrorShape
        (ollama_engine_stream (.typeErr "argument of type int is not iterable"
          :: List.replicate 9 (OllamaLine.resp "d"))) = 1 :=
  ⟨rfl, rfl, rfl, rfl⟩

/-- Witness for C4's amended theorem at one JSON-invalid line and nine
concrete deltas. -/
theorem claim_C4_witness :
    (["d1", "d2", "d3", "d4", "d5", "d6", "d7", "d8", "d9"].length = 9)
    ∧ (countShape (hasField "content")
        (ollama_engine_stream (.malformed "not json"
          :: ["d1", "d2", "d3", "d4", "d5", "d6", "d7", "d8", "d9"].map .resp)) = 9
      ∧ countShape isDoneShape
        (ollama_engine_stream (.malformed "not json"
          :: ["d1", "d2", "d3", "d4", "d5", "d6", "d7", "d8", "d9"].map .resp)) = 1
      ∧ countShape isErrorShape
        (ollama_engine_stream (.malformed "not json"
          :: ["d1", "d2", "d3", "d4", "d5", "d6", "d7", "d8", "d9"].map .resp)) = 0) :=
  ⟨rfl, ((claim_C4_line_handling.2.2.1 "not json"
      ["d1", "d2", "d3", "d4", "d5", "d6", "d7", "d8", "d9"] rfl)).2⟩

/-! ## Canonical wire shapes (C1). -/

/-- C1 (amended): every emitted line of every path is "data: "-prefixed.
On the fresh provider path every chunk is one of exactly the three claimed
shapes — content chunks carry the provider tag (but no replay flag) and the
terminal chunk carries the provider tag and the accumulated total length.
On the cache-replay path, however, every chunk carries the replay flag but
no provider tag, and the replay terminal chunk carries no total length.
The local-mode path additionally emits an initial status chunk that is none
of the three claimed shapes. -/
theorem claim_C1_amended :
    (∀ (provider : String) (o : AdapterOutcome) (e : SSE),
      e ∈ stream_generator provider o →
        ∃ fields, e = .dat fields ∧ claimChunkShape fields = true)
    ∧ (∀ (provider : String) (deltas : List String),
        (stream_generator provider (.ok deltas)).getLast?
          = some (.dat [("done", .bool true), ("provider", .str provider),
              ("total_length", .num (String.join deltas).length)]))
    ∧ (∀ (resp : String) (e : SSE),
        e ∈ cached_stream resp →
          ∃ fields, e = .dat fields
            ∧ (isCachedContentShape fields || isCachedDoneShape fields) = true
            ∧ hasField "provider" fields = false
            ∧ hasField "total_length" fields = false)
    ∧ (∀ (local_model : String) (lines : List LocalLine),
        (local_stream local_model lines).head?
            = some (.dat (localStatusChunk local_model))
        ∧ claimChunkShape (localStatusChunk local_model) = false)
    ∧ (∀ e : SSE, ∃ s, renderSSE e = "data: " ++ s) := by
  refine ⟨?_, ?_, ?_, ?_, ?_⟩
  · intro p o e he
    cases o with
    | ok ds =>
      rcases List.mem_append.mp he with h | h
      · obtain ⟨d, _, rfl⟩ := List.mem_map.mp h
        exact ⟨_, rfl, rfl⟩
      · rw [List.mem_singleton.mp h]
        exact ⟨_, rfl, rfl⟩
    | fail ds msg =>
      rcases List.mem_append.mp he with h | h
      · obtain ⟨d, _, rfl⟩ := List.mem_map.mp h
        exact ⟨_, rfl, rfl⟩
      · rw [List.mem_singleton.mp h]
        exact ⟨_, rfl, rfl⟩
  · intro p ds
    exact List.getLast?_concat _
  · intro resp e he
    rcases List.mem_append.mp he with h | h
    · obtain ⟨ch, _, rfl⟩ := List.mem_map.mp h
      exact ⟨_, rfl, rfl, rfl, rfl⟩
    · rw [List.mem_singleton.mp h]
      exact ⟨_, rfl, rfl, rfl, rfl⟩
  · intro local_model lines
    exact ⟨rfl, rfl⟩
  · intro e
    cases e with
    | dat fields => exact ⟨_, rfl⟩
    | doneLit => exact ⟨_, rfl⟩

/-- Counterexample to C1 as stated: the cache-replay path emits a content
chunk with no provider field (hence matching none of the three claimed
shapes) and a terminal chunk with no total length. -/
theorem claim_C1_counterexample :
    cached_stream "hi"
        = [SSE.dat [("content", JVal.str "hi"), ("cached", JVal.bool true)],
           SSE.dat [("done", JVal.bool true), ("cached", JVal.bool true)]]
    ∧ claimChunkShape [("content", JVal.str "hi"), ("cached", JVal.bool true)] = false
    ∧ hasField "provider" [("content", JVal.str "hi"), ("cached", JVal.bool true)] = false
    ∧ hasField "total_length" [("done", JVal.bool true), ("cached", JVal.bool true)] = false :=
  ⟨rfl, rfl, rfl, rfl⟩

/-- Witness for C1's amended theorem at a concrete fresh-path chunk. -/
theorem claim_C1_witness :
    ∃ fields, SSE.dat [("content", JVal.str "x"), ("provider", JVal.str "openai")]
        = SSE.dat fields ∧ claimChunkShape fields = true :=
  claim_C1_amended.1 "openai" (.ok ["x"]) _ (List.mem_cons_self _ _)


/-! ## Rate limiter state effects (C2, C5, C10). -/

/-- Whatever `is_rate_limited` answers, the state it leaves behind binds the
checked key to its front-pruned window. -/
theorem is_rate_limited_history (st : RLState) (now : Int) (client_id endpoint : String) :
    ((is_rate_limited st now client_id endpoint).2).request_history
      = alistSet st.request_history (client_id, endpoint)
          (pruneWindow now ((alistGet st.request_history (client_id, endpoint)).getD [])) := by
  simp only [is_rate_limited]
  split
  · rfl
  · split
    · rfl
    · rfl

/-- C2 (amended): a denied admission check appends no timestamp: after a
denial the pair's window is exactly the front-pruned (expired entries
removed) version of its prior window, a suffix of it; and the concrete
scenario holds — six rapid requests against the per-minute ceiling of 5
leave exactly 5 recorded timestamps, a seventh denial leaving them at 5. -/
theorem claim_C2_denied_not_recorded :
    (∀ (st : RLState) (now : Int) (client_id method path : String),
      ((rate_limit_middleware st now client_id method path).1).isSome = true →
        alistGet ((rate_limit_middleware st now client_id method path).2).request_history
            (client_id, method ++ ":" ++ path)
          = some (pruneWindow now
              ((alistGet st.request_history (client_id, method ++ ":" ++ path)).getD []))
        ∧ pruneWindow now
              ((alistGet st.request_history (client_id, method ++ ":" ++ path)).getD [])
            <:+ (alistGet st.request_history (client_id, method ++ ":" ++ path)).getD [])
    ∧ ((runMiddleware "c" "POST" "/auth/register" (initState 0) [0, 0, 0, 0, 0, 0]).2
        = [false, false, false, false, false, true]
      ∧ ((alistGet (runMiddleware "c" "POST" "/auth/register" (initState 0)
            [0, 0, 0, 0, 0, 0]).1.request_history ("c", "POST:/auth/register")).getD
            []).length = 5
      ∧ ((alistGet (runMiddleware "c" "POST" "/auth/register" (initState 0)
            [0, 0, 0, 0, 0, 0, 0]).1.request_history ("c", "POST:/auth/register")).getD
            []).length = 5) := by
  constructor
  · intro st now client_id method path h
    by_cases hskip : path ∈ skip_paths
    · rw [rate_limit_middleware, if_pos hskip] at h
      simp at h
    · by_cases hlim :
          (is_rate_limited st now client_id (method ++ ":" ++ path)).1.limited = true
      · have hres : (rate_limit_middleware st now client_id method path).2
            = (is_rate_limited st now client_id (method ++ ":" ++ path)).2 := by
          simp only [rate_limit_middleware, if_neg hskip, hlim, if_true]
        rw [hres, is_rate_limited_history]
        exact ⟨alistGet_set_self _ _ _, List.dropWhile_suffix _⟩
      · have hnone : (rate_limit_middleware st now client_id method path).1 = none := by
          simp only [rate_limit_middleware, if_neg hskip, hlim]
          simp [Bool.not_eq_true] at hlim
          simp [hlim]
        rw [hnone] at h
        simp at h
  · exact ⟨by decide, by decide, by decide⟩

/-- Counterexample to C2 as stated ("a denied check leaves the recorded
timestamps unchanged"): ten admitted requests — five at clock 10, five at
clock 3560 — followed by a check at clock 3615 that is denied, yet the
denied check shrinks the recorded window from ten timestamps to five by
pruning the five expired entries. -/
theorem claim_C2_counterexample :
    ((rate_limit_middleware c2state 3615 "c" "POST" "/auth/register").1).isSome = true
    ∧ alistGet c2state.request_history ("c", "POST:/auth/register")
        = some [10, 10, 10, 10, 10, 3560, 3560, 3560, 3560, 3560]
    ∧ alistGet ((rate_limit_middleware c2state 3615 "c" "POST" "/auth/register").2).request_history
        ("c", "POST:/auth/register")
        = some [3560, 3560, 3560, 3560, 3560] := ⟨by decide, by decide, by decide⟩

/-- Witness for C2's amended theorem at the denied check of
`claim_C2_counterexample`. -/
theorem claim_C2_witness :
    alistGet ((rate_limit_middleware c2state 3615 "c" "POST" "/auth/register").2).request_history
        ("c", "POST" ++ ":" ++ "/auth/register")
      = some (pruneWindow 3615
          ((alistGet c2state.request_history ("c", "POST" ++ ":" ++ "/auth/register")).getD []))
    ∧ pruneWindow 3615
          ((alistGet c2state.request_history ("c", "POST" ++ ":" ++ "/auth/register")).getD [])
        <:+ (alistGet c2state.request_history ("c", "POST" ++ ":" ++ "/auth/register")).getD [] :=
  claim_C2_denied_not_recorded.1 c2state 3615 "c" "POST" "/auth/register" (by decide)

/-- C5: a denied check's retry-after hint is 60 seconds when the per-minute
count is at or above its ceiling, and otherwise (hour-limit violation) the
seconds until the oldest timestamp still inside the one-hour window ages
out; a client exceeding a (2/min, 10/hr) limit with three calls in one
second has calls 1 and 2 admitted and call 3 denied with retry-after 60. -/
theorem claim_C5_retry_after :
    (∀ (st : RLState) (now : Int) (client_id endpoint : String),
      (limitsFor st.rate_limits endpoint).1
          ≤ countAfter (now - 60)
              (pruneWindow now ((alistGet st.request_history (client_id, endpoint)).getD [])) →
        (is_rate_limited st now client_id endpoint).1.retry_after = some 60)
    ∧ (∀ (st : RLState) (now : Int) (client_id endpoint : String),
        countAfter (now - 60)
            (pruneWindow now ((alistGet st.request_history (client_id, endpoint)).getD []))
          < (limitsFor st.rate_limits endpoint).1 →
        (limitsFor st.rate_limits endpoint).2
          ≤ countAfter (now - 3600)
              (pruneWindow now ((alistGet st.request_history (client_id, endpoint)).getD [])) →
        (is_rate_limited st now client_id endpoint).1.retry_after
          = some ((((pruneWindow now
                ((alistGet st.request_history (client_id, endpoint)).getD [])).find?
                (fun ts => now - 3600 < ts)).getD now) + 3600 - now))
    ∧ ((runMiddleware "A" "POST" "/x" stX [0, 0, 0]).2 = [false, false, true]
      ∧ (rate_limit_middleware (runMiddleware "A" "POST" "/x" stX [0, 0]).1 0 "A" "POST" "/x").1
          = some { status_code := 429,
                   detail := "Rate limit exceeded: 2 requests per minute",
                   retry_after := some 60 }) := by
  refine ⟨?_, ?_, by decide, by decide⟩
  · intro st now client_id endpoint h
    simp only [is_rate_limited]
    rw [if_pos h]
  · intro st now client_id endpoint h1 h2
    simp only [is_rate_limited]
    rw [if_neg (not_le.mpr h1), if_pos h2]

/-- Witness for C5's general clauses at the scenario's third call. -/
theorem claim_C5_witness :
    (is_rate_limited (runMiddleware "A" "POST" "/x" stX [0, 0]).1 0 "A" "POST:/x").1.retry_after
      = some 60 :=
  claim_C5_retry_after.1 (runMiddleware "A" "POST" "/x" stX [0, 0]).1 0 "A" "POST:/x" (by decide)

/-- Lookup in the swept history: a key survives the sweep exactly when its
pruned window is nonempty, and it is then bound to that pruned window. -/
theorem alistGet_prune_filter (now : Int) (k : RKey) :
    ∀ (l : List (RKey × List Int)), (l.map Prod.fst).Nodup →
      alistGet ((l.map (fun kv => (kv.1, pruneWindow now kv.2))).filter
          (fun kv => !kv.2.isEmpty)) k
        = match alistGet l k with
          | none => none
          | some w => if pruneWindow now w = [] then none else some (pruneWindow now w) := by
  intro l
  induction l with
  | nil => intro _; rfl
  | cons hd rest ih =>
    obtain ⟨k', w⟩ := hd
    intro hnd
    simp only [List.map_cons, List.nodup_cons] at hnd
    obtain ⟨hnotin, hrest⟩ := hnd
    by_cases hkk : k' = k
    · subst hkk
      by_cases hpe : pruneWindow now w = []
      · have hfilter : (!(pruneWindow now w).isEmpty) = false := by
          rw [hpe]; rfl
        simp only [List.map_cons, List.filter_cons, hfilter, Bool.false_eq_true, if_false]
        rw [ih hrest, alistGet_none_of_not_mem rest k' hnotin]
        simp [alistGet, hpe]
      · have hfilter : (!(pruneWindow now w).isEmpty) = true := by
          cases hpw : pruneWindow now w with
          | nil => exact absurd hpw hpe
          | cons a tl => rfl
        simp only [List.map_cons, List.filter_cons, hfilter, if_true]
        simp [alistGet, hpe]
    · cases hb : (!(pruneWindow now w).isEmpty) <;>
        simp [List.filter_cons, hb, alistGet, hkk, ih hrest]

/-- C10: an admission check on a never-seen (client, endpoint) pair inserts
an empty window for it into the tracking map as a side effect of the
defaultdict lookup (regardless of the check's verdict), so the tracked key
set grows by exactly that pair; a check never removes a tracked pair; and
the periodic sweep keeps exactly the pairs whose pruned windows are
nonempty, deleting the pairs whose windows are empty. -/
theorem claim_C10_tracking_map_growth :
    (∀ (st : RLState) (now : Int) (client_id endpoint : String),
      alistGet st.request_history (client_id, endpoint) = none →
        alistGet ((is_rate_limited st now client_id endpoint).2).request_history
            (client_id, endpoint) = some []
        ∧ ((is_rate_limited st now client_id endpoint).2).request_history.map Prod.fst
            = st.request_history.map Prod.fst ++ [(client_id, endpoint)])
    ∧ (∀ (st : RLState) (now : Int) (client_id endpoint : String) (k : RKey) (w : List Int),
        alistGet st.request_history k = some w →
          ∃ w', alistGet ((is_rate_limited st now client_id endpoint).2).request_history k
              = some w')
    ∧ (∀ (st : RLState) (now : Int) (k : RKey),
        300 ≤ now - st.last_cleanup →
        (st.request_history.map Prod.fst).Nodup →
        alistGet (cleanup_old_entries st now).request_history k
          = match alistGet st.request_history k with
            | none => none
            | some w => if pruneWindow now w = [] then none
                        else some (pruneWindow now w)) := by
  refine ⟨?_, ?_, ?_⟩
  · intro st now client_id endpoint h
    constructor
    · rw [is_rate_limited_history, h]
      exact alistGet_set_self _ _ _
    · rw [is_rate_limited_history]
      exact alistSet_keys_of_absent _ _ _ h
  · intro st now client_id endpoint k w h
    rw [is_rate_limited_history]
    by_cases hk : k = (client_id, endpoint)
    · subst hk
      exact ⟨_, alistGet_set_self _ _ _⟩
    · rw [alistGet_set_other _ _ _ _ hk]
      exact ⟨w, h⟩
  · intro st now k h hnd
    unfold cleanup_old_entries
    rw [if_neg (by omega)]
    exact alistGet_prune_filter now k st.request_history hnd

/-- Witness for C10 at a fresh limiter and the never-seen pair
("c", "POST:/x"). -/
theorem claim_C10_witness :
    alistGet ((is_rate_limited (initState 0) 0 "c" "POST:/x").2).request_history
        ("c", "POST:/x") = some []
    ∧ ((is_rate_limited (initState 0) 0 "c" "POST:/x").2).request_history.map Prod.fst
        = (initState 0).request_history.map Prod.fst ++ [("c", "POST:/x")] :=
  claim_C10_tracking_map_growth.1 (initState 0) 0 "c" "POST:/x" (by decide)

end Synapse
